import Mathlib

/-!
Shallow embedding of the booking core of the Hotel-API repository
(controllers/admin.controller.ts booking service section, services/payment.service.ts
cache/lock helper section, config/database.ts transaction wrapper, and the
user-booking update in the admin statistics controller file).

Modelling conventions:
* ids (users, rooms, accommodations, bookings, payments) are Nat;
* calendar dates are Int day numbers (the TS code parses date strings to UTC
  midnight, so `Math.ceil((checkout - checkin) / 86400000)` is exactly the
  day difference `checkout_day - checkin_day`);
* wall-clock instants are Int milliseconds; a date d as an instant is
  d * 86400000;
* money and unit counts are Int (the code does plain JS arithmetic on them);
* SQL tables are lists of row structures inside a DB record; primary-key
  lookups are List.find?; the row order of a list is insertion order;
* a fallible operation is DB -> Except BErr (DB × result); the
  `transaction` wrapper of config/database.ts commits the new DB on ok and
  returns the ORIGINAL DB on error (ROLLBACK), giving `transactionRun`;
* the in-memory lock of the cache helper is modelled by an oracle
  free : Nat -> Bool telling whether the lock key is absent from the store
  at the n-th poll of the 100 ms polling loop of `withLock`.
-/

/-- A row of the `rooms` table, with the columns the booking code reads:
`price_per_night` and the nullable `default_units`. -/
structure RoomRow where
  id : Nat
  accommodation_id : Nat
  name : String
  price_per_night : Int
  default_units : Option Int
deriving Repr, DecidableEq

/-- A row of the `room_inventory` table (columns used by the booking code). -/
structure InventoryRow where
  room_id : Nat
  date : Int
  available_units : Int
deriving Repr, DecidableEq

/-- A row of the `bookings` table (columns used by the booking code). -/
structure BookingRow where
  id : Nat
  user_id : Nat
  accommodation_id : Nat
  status : String
  total_amount : Int
  currency : String
  checkin_date : Int
  checkout_date : Int
  guest_count : Nat
  notes : Option String
deriving Repr, DecidableEq

/-- A row of the `booking_items` table. -/
structure BookingItemRow where
  booking_id : Nat
  room_id : Nat
  price_per_night : Int
  nights : Int
  quantity : Int
deriving Repr, DecidableEq

/-- A row of the `payments` table; `created_at` is a monotone insertion
stamp used by `ORDER BY created_at DESC LIMIT 1`; the
`original_payment_id` field models the metadata JSON of refund rows. -/
structure PaymentRow where
  id : Nat
  booking_id : Nat
  provider : String
  ptype : String
  status : String
  amount : Int
  currency : String
  transaction_id : String
  original_payment_id : Option Nat
  created_at : Nat
deriving Repr, DecidableEq

/-- A row of the `notifications` table (columns used by the booking code). -/
structure NotificationRow where
  user_id : Nat
  ntype : String
  message : String
deriving Repr, DecidableEq

/-- The relational store: one list per table plus id/stamp counters. -/
structure DB where
  rooms : List RoomRow
  room_inventory : List InventoryRow
  bookings : List BookingRow
  booking_items : List BookingItemRow
  payments : List PaymentRow
  notifications : List NotificationRow
  next_booking_id : Nat
  next_payment_id : Nat
deriving Repr, DecidableEq

/-- The errors the booking code raises (AppError message / http status pairs,
plus the plain `Error` thrown by the lock helper on timeout). -/
inductive BErr where
  | invalidDateRange
  | roomsNotFound
  | insufficientAvailability
  | bookingNotFound
  | bookingNotFoundOrDenied
  | cannotBeCancelled
  | cancellationWindow
  | invalidStatus
  | onlyPendingUpdatable
  | updateWindow
  | noFieldsToUpdate
  | lockTimeout
  | undefinedColumn
deriving Repr, DecidableEq

/-- The http status carried by each AppError of the booking code
(the lock timeout is a bare Error; the error handler maps it to 500). -/
def BErr.httpStatus : BErr → Nat
  | .invalidDateRange => 400
  | .roomsNotFound => 404
  | .insufficientAvailability => 400
  | .bookingNotFound => 404
  | .bookingNotFoundOrDenied => 404
  | .cannotBeCancelled => 400
  | .cancellationWindow => 400
  | .invalidStatus => 400
  | .onlyPendingUpdatable => 400
  | .updateWindow => 400
  | .noFieldsToUpdate => 400
  | .lockTimeout => 500
  | .undefinedColumn => 500

/-- The two 400 errors the user cancellation path raises are both the
`CancellationNotAllowed` case of the specification error taxonomy. -/
def BErr.isCancellationNotAllowed : BErr → Bool
  | .cannotBeCancelled => true
  | .cancellationWindow => true
  | _ => false

/-- The transaction wrapper of config/database.ts: BEGIN, run the body, COMMIT the new
state on normal return, ROLLBACK (keep the original state) and rethrow on
error. -/
def transactionRun {α : Type} (body : DB → Except BErr (DB × α)) (db : DB) :
    DB × Except BErr α :=
  match body db with
  | .ok (db2, a) => (db2, .ok a)
  | .error e => (db, .error e)

/-- Primary-key lookup in `room_inventory` on the UNIQUE (room_id, date). -/
def findInventory (db : DB) (roomId : Nat) (d : Int) : Option InventoryRow :=
  db.room_inventory.find? (fun ri => ri.room_id == roomId && ri.date == d)

/-!
## Availability engine

The availability query of createBooking has a fatal defect: its
`booked_units` CTE aggregates `SUM(bi.quantity)`, but `bi` is the alias of
`unnest($3::uuid[]) as bi(room_id)` — a FROM item whose ONLY column is
`room_id` (the booking-items join is aliased `bi2`). PostgreSQL rejects the
whole statement at parse analysis with undefined_column (42703) on every
execution, so the query never returns rows. `availabilityQuery` below
models the statement with this analysis step explicit: its error branch is
the one the program always takes.

The definitions `dateSeries`, `bookedUnits`, `remaining` and `minAvailable`
are the denotation the query text would have IF the reference `bi.quantity`
resolved to the `bi2` booking-items column (the evident intent of the
text); they describe the statement, not a computation the program ever
performs, and they populate the dead success branch of
`availabilityQuery`.
-/

/-- The `date_series` recursive CTE: check-in plus every later date strictly
below check-out (never empty: the anchor row is unconditional). -/
def dateSeries (ci co : Int) : List Int :=
  ci :: (List.range (co - 1 - ci).toNat).map (fun k => ci + 1 + k)

/-- The `booked_units` CTE restricted to one (room, date), under the
intended reading of `SUM(bi.quantity)` as the `bi2` booking-items column:
the sum, over all bookings whose half-open stay range covers the date and
whose status is not cancelled, of the quantities of the items of that
booking for the room. As written the column reference does not resolve —
see `availabilityQuery`. -/
def bookedUnits (db : DB) (roomId : Nat) (d : Int) : Int :=
  ((db.bookings.filter (fun b =>
      decide (b.checkin_date ≤ d) && decide (d < b.checkout_date) &&
      !(b.status == "cancelled"))).map (fun b =>
    ((db.booking_items.filter (fun it =>
        it.booking_id == b.id && it.room_id == roomId)).map
      (fun it => it.quantity)).sum)).sum

/-- The `remaining` column of the `inventory_check` CTE, under the same
intended reading: COALESCE(ri.available_units, r.default_units, 10) -
booked. -/
def remaining (db : DB) (room : RoomRow) (d : Int) : Int :=
  (match findInventory db room.id d with
   | some ri => ri.available_units
   | none => room.default_units.getD 10) - bookedUnits db room.id d

/-- MIN(remaining) over the (never empty) date series: the per-room value
the availability query would return under the intended reading. -/
def minAvailable (db : DB) (room : RoomRow) (ci co : Int) : Int :=
  match (dateSeries ci co).map (fun d => remaining db room d) with
  | [] => 0
  | x :: xs => xs.foldl min x

/-- The columns exposed by the FROM item `unnest($3::uuid[]) as bi(room_id)`
of the booked_units CTE: the one-column alias list of the query text. -/
def unnestBiColumns : List String := ["room_id"]

/-- The column that the aggregate `SUM(bi.quantity)` of booked_units
references on the alias `bi`. -/
def sumColumnOnBi : String := "quantity"

/-!
## Booking creation (createBooking of the booking service)
-/

/-- One element of the `rooms` array of a CreateBookingDTO. -/
structure RoomRequest where
  room_id : Nat
  quantity : Int
deriving Repr, DecidableEq

/-- The CreateBookingDTO fields read by createBooking. -/
structure CreateBookingDTO where
  accommodation_id : Nat
  checkin_date : Int
  checkout_date : Int
  guest_count : Nat
  rooms : List RoomRequest
  notes : Option String
deriving Repr, DecidableEq

/-- The batch room fetch:
SELECT .. FROM rooms r WHERE r.id = ANY(ids) AND r.accommodation_id = acc. -/
def fetchedRooms (db : DB) (dto : CreateBookingDTO) : List RoomRow :=
  db.rooms.filter (fun r =>
    (dto.rooms.map (fun q => q.room_id)).contains r.id &&
    r.accommodation_id == dto.accommodation_id)

/-- The roomMap lookups: pair each requested room with its fetched row;
`none` when a requested id is absent (unreachable after the row-count
check of createBooking, which this models as the same 404). -/
def roomPairs (db : DB) (dto : CreateBookingDTO) :
    Option (List (RoomRequest × RoomRow)) :=
  dto.rooms.mapM (fun req =>
    ((fetchedRooms db dto).find? (fun r => r.id == req.room_id)).map
      (fun r => (req, r)))

/-- The dates of the inventory-update loop of createBooking:
`currentDate` from check-in while strictly below check-out. -/
def stayDates (ci co : Int) : List Int :=
  (List.range (co - ci).toNat).map (fun k => ci + k)

/-- One guarded inventory upsert of createBooking:
INSERT .. VALUES (room, date, COALESCE(existing units, default_units, 10) - q)
ON CONFLICT (room_id, date)
DO UPDATE SET available_units = available_units - q
WHERE available_units >= q.
When the conflicting row has fewer than q units the guarded update touches
no row and raises no error. -/
def upsertInventoryList (db : DB) (roomId : Nat) (d : Int) (qty : Int) :
    List InventoryRow :=
  match findInventory db roomId d with
  | some ri =>
    if qty ≤ ri.available_units then
      db.room_inventory.map (fun r =>
        if r.room_id == roomId && r.date == d then
          { r with available_units := r.available_units - qty }
        else r)
    else db.room_inventory
  | none =>
    let base : Int :=
      ((db.rooms.find? (fun r => r.id == roomId)).bind
        (fun r => r.default_units)).getD 10
    db.room_inventory ++
      [{ room_id := roomId, date := d, available_units := base - qty }]

/-- The statement writes only the room_inventory table. -/
def inventoryUpsert (db : DB) (roomId : Nat) (d : Int) (qty : Int) : DB :=
  { db with room_inventory := upsertInventoryList db roomId d qty }

/-- The write phase of createBooking, after all validation passed: insert the
pending booking row, the booking items (snapshotting each price), run the
guarded inventory upsert for every (room, date) of the stay, and insert the
confirmation notification. It is total: no step of it can fail. -/
def performWrites (u : Nat) (dto : CreateBookingDTO)
    (pairs : List (RoomRequest × RoomRow)) (nights : Int) (db : DB) :
    DB × BookingRow :=
  let totalAmount : Int :=
    (pairs.map (fun pr => pr.2.price_per_night * nights * pr.1.quantity)).sum
  let b : BookingRow :=
    { id := db.next_booking_id, user_id := u,
      accommodation_id := dto.accommodation_id, status := "pending",
      total_amount := totalAmount, currency := "ZAR",
      checkin_date := dto.checkin_date, checkout_date := dto.checkout_date,
      guest_count := dto.guest_count, notes := dto.notes }
  let items : List BookingItemRow :=
    pairs.map (fun pr =>
      { booking_id := b.id, room_id := pr.1.room_id,
        price_per_night := pr.2.price_per_night, nights := nights,
        quantity := pr.1.quantity })
  let db1 : DB :=
    { db with bookings := db.bookings ++ [b],
              booking_items := db.booking_items ++ items,
              next_booking_id := db.next_booking_id + 1 }
  let db2 : DB := items.foldl (fun acc it =>
      (stayDates dto.checkin_date dto.checkout_date).foldl
        (fun acc2 d => inventoryUpsert acc2 it.room_id d it.quantity) acc) db1
  let db3 : DB :=
    { db2 with notifications := db2.notifications ++
        [{ user_id := u, ntype := "booking_confirmation",
           message := "Your booking has been created successfully." }] }
  (db3, b)

/-- The availability query of createBooking, with the SQL parse analysis of
the defective column reference explicit: unless every column referenced on
the alias `bi` is among the columns of that alias, the statement is
rejected with undefined_column (42703) and no row is returned — which is
what happens on every execution, since `quantity` is not among
`bi(room_id)`. The success branch carries the per-room MIN(remaining) rows
the statement would return under the intended `bi2` reading (requested ids
absent from the rooms table are dropped by the INNER JOIN); the program
never reaches it. -/
def availabilityQuery (db : DB) (dto : CreateBookingDTO) :
    Except BErr (List (Nat × Int)) :=
  if sumColumnOnBi ∈ unnestBiColumns then
    .ok (dto.rooms.filterMap (fun req =>
      (db.rooms.find? (fun r => r.id == req.room_id)).map (fun r =>
        (req.room_id,
         minAvailable db r dto.checkin_date dto.checkout_date))))
  else .error .undefinedColumn

/-- The availabilityMap lookup of the comparison loop:
`availabilityMap.get(room_id) || 0` (a missing row reads as 0; a present 0
is unchanged by the JS or-default). -/
def availValue (avail : List (Nat × Int)) (rid : Nat) : Int :=
  ((avail.find? (fun x => x.1 == rid)).map (fun x => x.2)).getD 0

/-- The transactional body of createBooking: nights guard, batch room fetch
with row-count check, then the availability query — whose undefined-column
failure aborts every run that gets this far — and, on the dead path where
the query returns rows, the comparison loop and the write phase. -/
def createBookingBody (u : Nat) (dto : CreateBookingDTO) (db : DB) :
    Except BErr (DB × BookingRow) :=
  if dto.checkout_date - dto.checkin_date < 1 then .error .invalidDateRange
  else if (fetchedRooms db dto).length ≠ dto.rooms.length then
    .error .roomsNotFound
  else
    match availabilityQuery db dto with
    | .error e => .error e
    | .ok avail =>
      match roomPairs db dto with
      | none => .error .roomsNotFound
      | some pairs =>
        match pairs.find? (fun pr =>
            decide (availValue avail pr.1.room_id < pr.1.quantity)) with
        | some _ => .error .insufficientAvailability
        | none =>
          .ok (performWrites u dto pairs
            (dto.checkout_date - dto.checkin_date) db)

/-!
## The lock helper (withLock of the cache service)

The polling loop checks whether the key is in the store; if it is, it
throws once the elapsed time exceeds the timeout, else sleeps 100 ms and
retries. `free k` says the key was absent at the k-th poll; the elapsed
time at the k-th poll is 100 * k ms.
-/

/-- One step of the polling loop of withLock, with explicit fuel; returns
the poll index at which the lock was acquired, or none on timeout. -/
def lockAcquireAux (free : Nat → Bool) (timeoutMs pollMs : Nat) :
    Nat → Nat → Option Nat
  | _, 0 => none
  | k, fuel + 1 =>
    if free k then some k
    else if timeoutMs < pollMs * k then none
    else lockAcquireAux free timeoutMs pollMs (k + 1) fuel

/-- The polling loop of withLock (poll every 100 ms). The fuel
timeoutMs / 100 + 2 covers every iteration the loop can reach before the
elapsed-time check throws. -/
def lockAcquire (free : Nat → Bool) (timeoutMs : Nat) : Option Nat :=
  lockAcquireAux free timeoutMs 100 0 (timeoutMs / 100 + 2)

/-- withLock of the cache service over a list of held lock keys: on
acquisition failure throw the lock-timeout error without running the body;
on acquisition set the key, run the body, and delete the key in a finally
block, whatever the body returned. -/
def withLock {α : Type} (ls : List String) (free : Nat → Bool) (key : String)
    (timeoutMs : Nat) (body : DB → DB × Except BErr α) (db : DB) :
    List String × DB × Except BErr α :=
  match lockAcquire free timeoutMs with
  | none => (ls, db, .error .lockTimeout)
  | some _ =>
    let ls1 := key :: ls
    let r := body db
    (ls1.erase key, r.1, r.2)

/-- The lock key of createBooking: booking:create:acc:checkin. -/
def bookingLockKey (acc : Nat) (ci : Int) : String :=
  s!"booking:create:{acc}:{ci}"

/-- createBooking of the booking service: the transactional body under the
per-(accommodation, check-in-date) lock with a 15000 ms timeout. -/
def createBooking (ls : List String) (free : Nat → Bool) (u : Nat)
    (dto : CreateBookingDTO) (db : DB) :
    List String × DB × Except BErr BookingRow :=
  withLock ls free (bookingLockKey dto.accommodation_id dto.checkin_date)
    15000 (fun d => transactionRun (createBookingBody u dto) d) db

/-!
## Booking lifecycle (updateBookingStatus, cancelBooking, updateUserBooking)
-/

/-- The inventory restoration UPDATE run on a transition into cancelled:
UPDATE room_inventory SET available_units = available_units + bi.quantity
FROM booking_items bi
WHERE room_inventory.room_id = bi.room_id
AND room_inventory.date >= ci AND room_inventory.date < co
AND bi.booking_id = id.
Each target row is updated once, from the first matching item row. -/
def restoreInventory (db : DB) (bookingId : Nat) (ci co : Int) : DB :=
  { db with room_inventory := db.room_inventory.map (fun ri =>
      match db.booking_items.find? (fun it =>
          it.booking_id == bookingId && it.room_id == ri.room_id) with
      | some it =>
        if ci ≤ ri.date ∧ ri.date < co then
          { ri with available_units := ri.available_units + it.quantity }
        else ri
      | none => ri) }

/-- The list of status values accepted by updateBookingStatus. -/
def validStatuses : List String :=
  ["pending", "confirmed", "checked_in", "checked_out", "cancelled", "no_show"]

/-- The transactional body of the admin updateBookingStatus: validate the
target value, update the row unconditionally (no check of the previous
status), and restore inventory when the new status is cancelled. -/
def updateBookingStatusBody (bookingId : Nat) (status : String) (db : DB) :
    Except BErr (DB × BookingRow) :=
  if !(validStatuses.contains status) then .error .invalidStatus
  else
    match db.bookings.find? (fun b => b.id == bookingId) with
    | none => .error .bookingNotFound
    | some b =>
      let b2 := { b with status := status }
      let db1 : DB := { db with bookings := db.bookings.map (fun x =>
          if x.id == bookingId then { x with status := status } else x) }
      let db2 : DB :=
        if status == "cancelled" then
          restoreInventory db1 bookingId b2.checkin_date b2.checkout_date
        else db1
      let db3 : DB :=
        { db2 with notifications := db2.notifications ++
            [{ user_id := b.user_id, ntype := "booking_status_change",
               message := "Your booking status has been updated." }] }
      .ok (db3, b2)

/-- The latest completed payment of a booking:
SELECT * FROM payments WHERE booking_id = id AND status = completed
ORDER BY created_at DESC LIMIT 1. -/
def latestCompletedPayment (db : DB) (bookingId : Nat) : Option PaymentRow :=
  (db.payments.filter (fun p =>
      p.booking_id == bookingId && p.status == "completed")).foldl
    (fun acc p =>
      match acc with
      | none => some p
      | some q => if q.created_at < p.created_at then some p else some q)
    none

/-- The refund row inserted by cancelBooking for an original completed
payment p: a NEW pending payment mirroring amount, currency and provider,
referencing p in its metadata; p itself is never written. -/
def refundRow (db : DB) (bookingId : Nat) (p : PaymentRow) : PaymentRow :=
  { id := db.next_payment_id, booking_id := bookingId,
    provider := p.provider, ptype := "refund", status := "pending",
    amount := p.amount, currency := p.currency,
    transaction_id := "refund_" ++ p.transaction_id,
    original_payment_id := some p.id, created_at := db.next_payment_id }

/-- The transactional body of the user cancelBooking: ownership-scoped
fetch (one combined 404 for missing and foreign bookings), status gate,
24-hour gate against wall-clock now (in ms), then status update with a
note, inventory restoration, optional refund-row insert, and the
cancellation notification. -/
def cancelBookingBody (bookingId userId : Nat) (reason : Option String)
    (nowMs : Int) (db : DB) : Except BErr (DB × Unit) :=
  match db.bookings.find? (fun b =>
      b.id == bookingId && b.user_id == userId) with
  | none => .error .bookingNotFoundOrDenied
  | some booking =>
    if !(booking.status == "pending" || booking.status == "confirmed") then
      .error .cannotBeCancelled
    else if booking.checkin_date * 86400000 - nowMs < 24 * 3600000 then
      .error .cancellationWindow
    else
      let note := (match booking.notes with
        | some s => s ++ " | "
        | none => "") ++ reason.getD "Cancelled by user"
      let db1 : DB := { db with bookings := db.bookings.map (fun x =>
          if x.id == bookingId then
            { x with status := "cancelled", notes := some note }
          else x) }
      let db2 : DB :=
        restoreInventory db1 bookingId booking.checkin_date
          booking.checkout_date
      let db3 : DB :=
        match latestCompletedPayment db2 bookingId with
        | some p =>
          { db2 with payments := db2.payments ++ [refundRow db2 bookingId p],
                     next_payment_id := db2.next_payment_id + 1 }
        | none => db2
      let db4 : DB :=
        { db3 with notifications := db3.notifications ++
            [{ user_id := userId, ntype := "booking_cancelled",
               message := "Your booking has been cancelled successfully." }] }
      .ok (db4, ())

/-- The updatable fields of the user booking update. -/
structure UpdateBookingData where
  checkin_date : Option Int
  checkout_date : Option Int
  guest_count : Option Nat
  notes : Option String
deriving Repr, DecidableEq

/-- The transactional body of updateUserBooking: ownership-scoped fetch
(same combined 404), pending-only gate, 24-hour gate, dynamic field
update; no availability re-check and no inventory adjustment. -/
def updateUserBookingBody (bookingId userId : Nat) (upd : UpdateBookingData)
    (nowMs : Int) (db : DB) : Except BErr (DB × BookingRow) :=
  match db.bookings.find? (fun b =>
      b.id == bookingId && b.user_id == userId) with
  | none => .error .bookingNotFoundOrDenied
  | some booking =>
    if !(booking.status == "pending") then .error .onlyPendingUpdatable
    else if booking.checkin_date * 86400000 - nowMs < 24 * 3600000 then
      .error .updateWindow
    else if upd.checkin_date.isNone && upd.checkout_date.isNone &&
        upd.guest_count.isNone && upd.notes.isNone then
      .error .noFieldsToUpdate
    else
      let apply := fun (x : BookingRow) =>
        { x with checkin_date := upd.checkin_date.getD x.checkin_date,
                 checkout_date := upd.checkout_date.getD x.checkout_date,
                 guest_count := upd.guest_count.getD x.guest_count,
                 notes := match upd.notes with
                   | some s => some s
                   | none => x.notes }
      let db1 : DB := { db with bookings := db.bookings.map (fun x =>
          if x.id == bookingId then apply x else x) }
      let db2 : DB :=
        { db1 with notifications := db1.notifications ++
            [{ user_id := userId, ntype := "booking_updated",
               message := "Your booking has been updated successfully." }] }
      .ok (db2, apply booking)

/-!
## Specification-side definitions for the availability formula (claim C1)

These follow the words of the specification, to be compared with the
embedding of the SQL above.
-/

/-- Spec wording: the total quantity already reserved by all non-cancelled
bookings whose half-open stay range covers the date and which include the
room in their items (each such booking reserves the summed quantity of its
items for the room). -/
def specReservedTotal (db : DB) (roomId : Nat) (d : Int) : Int :=
  db.bookings.foldr (fun b acc =>
    if ¬(b.status = "cancelled") ∧ b.checkin_date ≤ d ∧ d < b.checkout_date
    then
      acc + ((db.booking_items.filter (fun it =>
          it.booking_id == b.id && it.room_id == roomId)).map
        (fun it => it.quantity)).sum
    else acc) 0

/-- The effective available count exactly as claim C1 words it: the
available_units of the RoomInventory row when one exists; otherwise the
default unit count minus the reserved total. -/
def claimEffectiveAvailable (db : DB) (room : RoomRow) (d : Int) : Int :=
  match findInventory db room.id d with
  | some ri => ri.available_units
  | none => room.default_units.getD 10 - specReservedTotal db room.id d

/-- The amended effective available count: the reserved total is subtracted
in BOTH branches, also when an inventory row exists. -/
def claimEffectiveAmended (db : DB) (room : RoomRow) (d : Int) : Int :=
  (match findInventory db room.id d with
   | some ri => ri.available_units
   | none => room.default_units.getD 10) - specReservedTotal db room.id d

/-- A room with an explicit inventory row for the night and a non-cancelled
booking of 2 units covering the same night: the claim as stated expects the
effective count 5 (the available_units of the row), the code computes
5 - 2 = 3. -/
def c1room : RoomRow :=
  { id := 1, accommodation_id := 1, name := "Standard",
    price_per_night := 100, default_units := some 5 }

/-- Store for the C1 counterexample: one inventory row (room 1, date 0) with
5 units, one confirmed booking occupying night 0 with one item of room 1,
quantity 2. -/
def c1db : DB :=
  { rooms := [c1room],
    room_inventory := [{ room_id := 1, date := 0, available_units := 5 }],
    bookings := [{ id := 1, user_id := 2, accommodation_id := 1,
                   status := "confirmed", total_amount := 200,
                   currency := "ZAR", checkin_date := 0, checkout_date := 1,
                   guest_count := 2, notes := none }],
    booking_items := [{ booking_id := 1, room_id := 1, price_per_night := 100,
                        nights := 1, quantity := 2 }],
    payments := [], notifications := [],
    next_booking_id := 2, next_payment_id := 1 }

/-- A request for one unit of room 1 for night 0, used to run createBooking
against the C1 store: it passes the nights and room checks, so it reaches
the availability query. -/
def c1dto : CreateBookingDTO :=
  { accommodation_id := 1, checkin_date := 0, checkout_date := 1,
    guest_count := 2, rooms := [{ room_id := 1, quantity := 1 }],
    notes := none }

/-- Whether an Except result is a success. -/
def exceptIsOk {ε α : Type} : Except ε α → Bool
  | .ok _ => true
  | .error _ => false

/-- Room for the C2 witness: a single unit per night by default. -/
def c2room : RoomRow :=
  { id := 1, accommodation_id := 1, name := "Solo", price_per_night := 80,
    default_units := some 1 }

/-- Empty store holding only the C2 room. -/
def c2db : DB :=
  { rooms := [c2room], room_inventory := [], bookings := [],
    booking_items := [], payments := [], notifications := [],
    next_booking_id := 1, next_payment_id := 1 }

/-- A request for 2 units of a room that has only 1. -/
def c2dto : CreateBookingDTO :=
  { accommodation_id := 1, checkin_date := 0, checkout_date := 1,
    guest_count := 2, rooms := [{ room_id := 1, quantity := 2 }],
    notes := none }

/-- Store for the C3 double-restoration run: a confirmed booking of room 1,
nights 0 and 1, one unit, whose creation left both inventory rows at 0. -/
def c3db : DB :=
  { rooms := [{ id := 1, accommodation_id := 1, name := "Std",
                price_per_night := 100, default_units := some 1 }],
    room_inventory := [{ room_id := 1, date := 0, available_units := 0 },
                       { room_id := 1, date := 1, available_units := 0 }],
    bookings := [{ id := 1, user_id := 2, accommodation_id := 1,
                   status := "confirmed", total_amount := 200,
                   currency := "ZAR", checkin_date := 0, checkout_date := 2,
                   guest_count := 2, notes := none }],
    booking_items := [{ booking_id := 1, room_id := 1, price_per_night := 100,
                        nights := 2, quantity := 1 }],
    payments := [], notifications := [],
    next_booking_id := 2, next_payment_id := 1 }

/-- The store after a first admin transition of booking 1 into cancelled. -/
def c3afterFirst : DB :=
  (transactionRun (updateBookingStatusBody 1 "cancelled") c3db).1

/-- A second admin transition of the already-cancelled booking 1. -/
def c3afterSecond : DB × Except BErr BookingRow :=
  transactionRun (updateBookingStatusBody 1 "cancelled") c3afterFirst

/-- Booking for the C5 witness: already checked in, so the user may not
cancel it. -/
def c5booking : BookingRow :=
  { id := 1, user_id := 1, accommodation_id := 1, status := "checked_in",
    total_amount := 100, currency := "ZAR", checkin_date := 10,
    checkout_date := 12, guest_count := 1, notes := none }

/-- Store holding only the C5 booking. -/
def c5db : DB :=
  { rooms := [], room_inventory := [], bookings := [c5booking],
    booking_items := [], payments := [], notifications := [],
    next_booking_id := 2, next_payment_id := 1 }

/-- Booking for the C6 counterexample: exists and is owned by user 1. -/
def c6booking : BookingRow :=
  { id := 1, user_id := 1, accommodation_id := 1, status := "pending",
    total_amount := 100, currency := "ZAR", checkin_date := 10,
    checkout_date := 12, guest_count := 1, notes := none }

/-- Store holding only the C6 booking. -/
def c6db : DB :=
  { rooms := [], room_inventory := [], bookings := [c6booking],
    booking_items := [], payments := [], notifications := [],
    next_booking_id := 2, next_payment_id := 1 }

/-- An update payload with no fields set. -/
def c6upd : UpdateBookingData :=
  { checkin_date := none, checkout_date := none, guest_count := none,
    notes := none }

/-- Room for the C7 witness. -/
def c7room : RoomRow :=
  { id := 1, accommodation_id := 1, name := "Twin", price_per_night := 100,
    default_units := some 3 }

/-- Empty store holding only the C7 room. -/
def c7db : DB :=
  { rooms := [c7room], room_inventory := [], bookings := [],
    booking_items := [], payments := [], notifications := [],
    next_booking_id := 1, next_payment_id := 1 }

/-- A two-night request for one unit of the C7 room. -/
def c7dto : CreateBookingDTO :=
  { accommodation_id := 1, checkin_date := 0, checkout_date := 2,
    guest_count := 2, rooms := [{ room_id := 1, quantity := 1 }],
    notes := none }

/-- A zero-night request (check-in equal to check-out) for the C8 witness. -/
def c8dto : CreateBookingDTO :=
  { accommodation_id := 1, checkin_date := 5, checkout_date := 5,
    guest_count := 1, rooms := [], notes := none }

/-- Store for the C9 witness: the inventory row for (room 1, date 0) has 0
available units, fewer than the quantity being written. -/
def c9db : DB :=
  { rooms := [{ id := 1, accommodation_id := 1, name := "Std",
                price_per_night := 100, default_units := some 3 }],
    room_inventory := [{ room_id := 1, date := 0, available_units := 0 }],
    bookings := [], booking_items := [], payments := [], notifications := [],
    next_booking_id := 1, next_payment_id := 1 }

/-- Room for the C10 witness: NULL default_units. -/
def c10room : RoomRow :=
  { id := 1, accommodation_id := 1, name := "Nullish", price_per_night := 50,
    default_units := none }

/-- Empty store holding only the C10 room. -/
def c10db : DB :=
  { rooms := [c10room], room_inventory := [], bookings := [],
    booking_items := [], payments := [], notifications := [],
    next_booking_id := 1, next_payment_id := 1 }

/-- A one-night request for 4 units of the NULL-default room. -/
def c10dto : CreateBookingDTO :=
  { accommodation_id := 1, checkin_date := 0, checkout_date := 1,
    guest_count := 1, rooms := [{ room_id := 1, quantity := 4 }],
    notes := none }

/-!
## Helper lemmas
-/

/-- The spec-worded reserved total coincides with the booked_units column of
the availability query. -/
theorem specReservedTotal_eq_bookedUnits (db : DB) (roomId : Nat) (d : Int) :
    specReservedTotal db roomId d = bookedUnits db roomId d := by
  unfold specReservedTotal bookedUnits
  induction db.bookings with
  | nil => rfl
  | cons b bs ih =>
    by_cases hc : ¬(b.status = "cancelled") ∧ b.checkin_date ≤ d ∧
        d < b.checkout_date
    · have hb : (decide (b.checkin_date ≤ d) && decide (d < b.checkout_date)
          && !(b.status == "cancelled")) = true := by
        simp only [Bool.and_eq_true, decide_eq_true_eq, Bool.not_eq_true',
          beq_eq_false_iff_ne]
        exact ⟨⟨hc.2.1, hc.2.2⟩, hc.1⟩
      simp only [List.foldr_cons, if_pos hc, List.filter_cons, hb,
        List.map_cons, List.sum_cons, ih, if_true]
      ring
    · have hb : (decide (b.checkin_date ≤ d) && decide (d < b.checkout_date)
          && !(b.status == "cancelled")) = false := by
        simp only [Bool.and_eq_true, decide_eq_true_eq, Bool.not_eq_true',
          beq_eq_false_iff_ne, Bool.and_eq_false_iff] at hc ⊢
        by_contra hall
        push_neg at hall
        simp only [Bool.not_eq_false, Bool.and_eq_true, decide_eq_true_eq,
          Bool.not_eq_true', beq_eq_false_iff_ne] at hall
        exact hc ⟨hall.2, hall.1.1, hall.1.2⟩
      simp only [List.foldr_cons, if_neg hc, List.filter_cons, hb, ih,
        Bool.false_eq_true, if_false]

/-- Pointwise: the remaining column of the availability query is the amended
effective count (reserved total subtracted in both branches). -/
theorem remaining_eq_claimAmended (db : DB) (room : RoomRow) (d : Int) :
    remaining db room d = claimEffectiveAmended db room d := by
  unfold remaining claimEffectiveAmended
  rw [specReservedTotal_eq_bookedUnits]

/-- Folding guarded upserts over a date list writes only room_inventory. -/
theorem foldStay_preserves (ds : List Int) (rid : Nat) (q : Int) (db : DB) :
    (ds.foldl (fun a d => inventoryUpsert a rid d q) db).bookings =
      db.bookings ∧
    (ds.foldl (fun a d => inventoryUpsert a rid d q) db).booking_items =
      db.booking_items := by
  induction ds generalizing db with
  | nil => exact ⟨rfl, rfl⟩
  | cons d ds ih =>
    simp only [List.foldl_cons]
    exact (ih (inventoryUpsert db rid d q))

/-- The whole inventory-update loop of the write phase writes only
room_inventory. -/
theorem writeFold_preserves (items : List BookingItemRow) (ci co : Int)
    (db : DB) :
    ((items.foldl (fun acc it => (stayDates ci co).foldl
        (fun a2 d => inventoryUpsert a2 it.room_id d it.quantity) acc)
      db)).bookings = db.bookings ∧
    ((items.foldl (fun acc it => (stayDates ci co).foldl
        (fun a2 d => inventoryUpsert a2 it.room_id d it.quantity) acc)
      db)).booking_items = db.booking_items := by
  induction items generalizing db with
  | nil => exact ⟨rfl, rfl⟩
  | cons it items ih =>
    simp only [List.foldl_cons]
    obtain ⟨h1, h2⟩ :=
      ih ((stayDates ci co).foldl
        (fun a2 d => inventoryUpsert a2 it.room_id d it.quantity) db)
    obtain ⟨g1, g2⟩ :=
      foldStay_preserves (stayDates ci co) it.room_id it.quantity db
    exact ⟨h1.trans g1, h2.trans g2⟩

/-- Every pair produced by the roomMap lookups consists of a requested room
and a row of the rooms table whose id is the requested id. -/
theorem roomPairsAux_mem (db : DB) (dto : CreateBookingDTO)
    (l : List RoomRequest) :
    ∀ (pairs : List (RoomRequest × RoomRow)),
    l.mapM (fun req =>
      ((fetchedRooms db dto).find? (fun r => r.id == req.room_id)).map
        (fun r => (req, r))) = some pairs →
    ∀ pr ∈ pairs, pr.2 ∈ db.rooms ∧ pr.2.id = pr.1.room_id := by
  induction l with
  | nil =>
    intro pairs h
    simp only [List.mapM_nil, pure, Option.some.injEq] at h
    subst h
    intro pr hpr
    cases hpr
  | cons r rs ih =>
    intro pairs h
    rw [List.mapM_cons] at h
    obtain ⟨a, ha, h2⟩ := Option.bind_eq_some.mp h
    obtain ⟨as, has, h3⟩ := Option.bind_eq_some.mp h2
    simp only [pure, Option.some.injEq] at h3
    subst h3
    obtain ⟨room, hfind, hform⟩ := Option.map_eq_some'.mp ha
    subst hform
    intro pr hpr
    rcases List.mem_cons.mp hpr with hpr | hpr
    · subst hpr
      refine ⟨List.mem_of_mem_filter (List.mem_of_find?_eq_some hfind), ?_⟩
      have := List.find?_some hfind
      simpa using this
    · exact ih as has pr hpr

/-- The roomMap pairing draws every paired row from the rooms table. -/
theorem roomPairs_mem (db : DB) (dto : CreateBookingDTO)
    (pairs : List (RoomRequest × RoomRow))
    (h : roomPairs db dto = some pairs) :
    ∀ pr ∈ pairs, pr.2 ∈ db.rooms ∧ pr.2.id = pr.1.room_id :=
  roomPairsAux_mem db dto dto.rooms pairs h

/-- The booking item rows appended by the write phase. -/
theorem performWrites_booking_items (u : Nat) (dto : CreateBookingDTO)
    (pairs : List (RoomRequest × RoomRow)) (nights : Int) (db : DB) :
    ((performWrites u dto pairs nights db).1).booking_items =
      db.booking_items ++ pairs.map (fun pr =>
        { booking_id := db.next_booking_id, room_id := pr.1.room_id,
          price_per_night := pr.2.price_per_night, nights := nights,
          quantity := pr.1.quantity }) := by
  unfold performWrites
  exact (writeFold_preserves _ _ _ _).2

/-- The write phase always appends exactly the returned pending booking
row to the bookings table, whatever the inventory contents. -/
theorem performWrites_bookings (u : Nat) (dto : CreateBookingDTO)
    (pairs : List (RoomRequest × RoomRow)) (nights : Int) (db : DB) :
    ((performWrites u dto pairs nights db).1).bookings =
      db.bookings ++ [(performWrites u dto pairs nights db).2] := by
  unfold performWrites
  exact (writeFold_preserves _ _ _ _).1

/-!
## Claim theorems
-/

/-- Claim C1 evaluation, showing the code bug: the column `quantity`
referenced by SUM(bi.quantity) is not among the columns of the unnest alias
bi(room_id), so at the C1 input — a request that passes the nights and
room checks, against a store with an inventory row and a covering booking
— the availability query raises undefined_column and the transaction rolls
back with the raw store error: no effective available count is ever
computed. The last two conjuncts document that even the denotation the
query would have under the intended bi2 reading contradicts the claim:
with a row of 5 units and 2 units booked it yields 5 - 2 = 3, not the
row value 5 the claim assigns to the row-exists branch. -/
theorem claim_c1_code_bug :
    ¬(sumColumnOnBi ∈ unnestBiColumns) ∧
    availabilityQuery c1db c1dto = .error .undefinedColumn ∧
    transactionRun (createBookingBody 2 c1dto) c1db =
      (c1db, .error .undefinedColumn) ∧
    remaining c1db c1room 0 = 3 ∧
    claimEffectiveAvailable c1db c1room 0 = 5 := by
  refine ⟨by decide, rfl, rfl, by decide, by decide⟩

/-- Claim C4: createBooking is exactly its transactional body run under the
lock keyed by the accommodation and check-in date with a 15000 ms wait
bound; when the polling loop times out the call fails with the
lock-timeout error and the store is untouched (the body never ran); and on
every outcome the lock store afterwards equals the lock store before — an
acquired lock is released by the finally block and a timed-out call never
held one. -/
theorem claim_c4 (ls : List String) (free : Nat → Bool) (u : Nat)
    (dto : CreateBookingDTO) (db : DB) :
    createBooking ls free u dto db =
      withLock ls free (bookingLockKey dto.accommodation_id dto.checkin_date)
        15000 (fun d => transactionRun (createBookingBody u dto) d) db ∧
    (createBooking ls free u dto db).1 = ls ∧
    (lockAcquire free 15000 = none →
      createBooking ls free u dto db = (ls, db, .error .lockTimeout)) := by
  refine ⟨rfl, ?_, ?_⟩
  · unfold createBooking withLock
    cases h : lockAcquire free 15000 with
    | none => rfl
    | some k => simp [List.erase_cons_head]
  · intro h
    unfold createBooking withLock
    rw [h]

/-- Claim C4 witness: with the lock key held at every poll, createBooking
times out, reports the lock-timeout error, and leaves the store alone. -/
theorem claim_c4_witness :
    createBooking [] (fun _ => false) 0 c8dto c7db =
      ([], c7db, .error .lockTimeout) :=
  (claim_c4 [] (fun _ => false) 0 c8dto c7db).2.2 (by decide)

/-- Claim C8: a request whose date range yields fewer than one night fails
with the invalid-date-range error and the store is returned unchanged — the
nights guard sits before the room fetch, the availability query and every
write of the transactional body. -/
theorem claim_c8 (ls : List String) (free : Nat → Bool) (u : Nat)
    (dto : CreateBookingDTO) (db : DB) (k : Nat)
    (hacq : lockAcquire free 15000 = some k)
    (h : dto.checkout_date - dto.checkin_date < 1) :
    createBooking ls free u dto db = (ls, db, .error .invalidDateRange) := by
  have hbody : createBookingBody u dto db = .error .invalidDateRange := by
    unfold createBookingBody
    rw [if_pos h]
  unfold createBooking withLock
  rw [hacq]
  simp only [transactionRun, hbody, List.erase_cons_head]

/-- Claim C8 witness: a zero-night request (check-in equal to check-out) is
rejected with the invalid-date-range error and no write. -/
theorem claim_c8_witness :
    createBooking [] (fun _ => true) 3 c8dto c7db =
      ([], c7db, .error .invalidDateRange) :=
  claim_c8 [] (fun _ => true) 3 c8dto c7db 0 (by decide) (by decide)

/-- Claim C2 evaluation, showing the code bug: a request for 2 units of a
room whose intended minimum availability is 1 — exactly the scenario of
the claim — never produces the insufficient-availability error, because
the availability query dies with undefined_column before the comparison
loop; the run fails with the raw store error instead. The rollback half of
the claim does hold: the full createBooking tuple shows the original store
returned unchanged and the lock released. -/
theorem claim_c2_code_bug :
    minAvailable c2db c2room 0 1 = 1 ∧
    createBooking [] (fun _ => true) 5 c2dto c2db =
      ([], c2db, .error .undefinedColumn) := by
  refine ⟨by decide, ?_⟩
  have hbody : createBookingBody 5 c2dto c2db = .error .undefinedColumn :=
    rfl
  have hacq : lockAcquire (fun _ => true) 15000 = some 0 := by decide
  unfold createBooking withLock
  rw [hacq]
  simp only [transactionRun, hbody, List.erase_cons_head]

/-- Claim C7 evaluation, showing the code bug: there is no successful
createBooking run for the stored total to satisfy — a well-formed
two-night single-room request with ample capacity dies in the availability
query with undefined_column, rolled back, so no booking row is ever
stored. The second conjunct documents that the (unreachable) write phase
does implement the claimed pricing at this input:
100 per night * 2 nights * quantity 1 = 200, with the price snapshotted
into the item row. -/
theorem claim_c7_code_bug :
    transactionRun (createBookingBody 7 c7dto) c7db =
      (c7db, .error .undefinedColumn) ∧
    (performWrites 7 c7dto [({ room_id := 1, quantity := 1 }, c7room)] 2
        c7db).2.total_amount = 100 * 2 * 1 ∧
    ((performWrites 7 c7dto [({ room_id := 1, quantity := 1 }, c7room)] 2
        c7db).1).booking_items =
      [{ booking_id := 1, room_id := 1, price_per_night := 100,
         nights := 2, quantity := 1 }] := by
  refine ⟨rfl, by decide, by decide⟩

/-- Claim C9: when the existing inventory row of a touched (room, date) has
fewer available units than the quantity being reserved, the guarded upsert
leaves the store exactly as it was — no row is affected and no error is
raised (the function is total) — and the write phase run on that same store
still appends and returns its booking row, so createBooking commits. -/
theorem claim_c9 (db : DB) (rid : Nat) (d : Int) (qty : Int)
    (ri : InventoryRow) (hfind : findInventory db rid d = some ri)
    (hlt : ri.available_units < qty) :
    inventoryUpsert db rid d qty = db ∧
    ∀ (u : Nat) (dto : CreateBookingDTO)
      (pairs : List (RoomRequest × RoomRow)) (nights : Int),
      ((performWrites u dto pairs nights db).1).bookings =
        db.bookings ++ [(performWrites u dto pairs nights db).2] := by
  constructor
  · unfold inventoryUpsert upsertInventoryList
    simp only [hfind]
    rw [if_neg (by omega : ¬qty ≤ ri.available_units)]
  · intro u dto pairs nights
    exact performWrites_bookings u dto pairs nights db

/-- Claim C9 witness: writing quantity 1 against a row holding 0 available
units leaves the store untouched and raises no error. -/
theorem claim_c9_witness :
    inventoryUpsert c9db 1 0 1 = c9db :=
  (claim_c9 c9db 1 0 1 { room_id := 1, date := 0, available_units := 0 }
    (by decide) (by decide)).1

/-- Claim C10 evaluation, showing the code bug: a request for 4 units of
the NULL-default room passes the nights and room checks, then dies in the
availability query with undefined_column, rolled back — the availability
computation that would coalesce NULL default_units to the capacity 10
never completes, so the first half of the claim describes a computation
the program does not perform. The last conjunct documents the faithful
half: the (unreachable) guarded insert statement, run directly on the
no-row store, does seed the row with available_units = 10 - 4. -/
theorem claim_c10_code_bug :
    availabilityQuery c10db c10dto = .error .undefinedColumn ∧
    transactionRun (createBookingBody 3 c10dto) c10db =
      (c10db, .error .undefinedColumn) ∧
    inventoryUpsert c10db c10room.id 0 4 =
      { c10db with room_inventory := c10db.room_inventory ++
          [{ room_id := c10room.id, date := 0,
             available_units := 10 - 4 }] } := by
  refine ⟨rfl, rfl, by decide⟩

/-- Claim C3 evaluation, showing the code bug: booking 1 (confirmed, stay
nights 0 and 1, one unit of room 1, both inventory rows at 0 after
creation). The first admin transition into cancelled restores both rows to
1, as the claim requires; but a second transition of the already-cancelled
booking into cancelled SUCCEEDS and restores AGAIN, leaving both rows at 2
— the claim requires the second attempt to fail without double
restoration. -/
theorem claim_c3_code_bug :
    c3afterFirst.room_inventory =
      [{ room_id := 1, date := 0, available_units := 1 },
       { room_id := 1, date := 1, available_units := 1 }] ∧
    c3afterFirst.bookings.map (fun b => b.status) = ["cancelled"] ∧
    (c3afterSecond.1).room_inventory =
      [{ room_id := 1, date := 0, available_units := 2 },
       { room_id := 1, date := 1, available_units := 2 }] ∧
    exceptIsOk c3afterSecond.2 = true := by
  decide

/-- Claim C5: given an owned booking, the user cancellation fails with a
CancellationNotAllowed-class error whenever the status is neither pending
nor confirmed, or the check-in instant is less than 24 hours after now;
when both gates pass it succeeds, adds each item quantity back to every
inventory row of that room inside the stay range, and, exactly when a
completed payment exists, appends one NEW pending refund payment mirroring
the amount, currency and provider of the latest completed payment — the
original payment rows are carried over unmodified. -/
theorem claim_c5 (db : DB) (bid uid : Nat) (reason : Option String)
    (nowMs : Int) (booking : BookingRow)
    (hfind : db.bookings.find? (fun b => b.id == bid && b.user_id == uid) =
      some booking) :
    (¬(booking.status = "pending" ∨ booking.status = "confirmed") →
      ∃ e, cancelBookingBody bid uid reason nowMs db = .error e ∧
        e.isCancellationNotAllowed = true) ∧
    (booking.checkin_date * 86400000 - nowMs < 24 * 3600000 →
      ∃ e, cancelBookingBody bid uid reason nowMs db = .error e ∧
        e.isCancellationNotAllowed = true) ∧
    ((booking.status = "pending" ∨ booking.status = "confirmed") →
      ¬(booking.checkin_date * 86400000 - nowMs < 24 * 3600000) →
      ∃ db4, cancelBookingBody bid uid reason nowMs db = .ok (db4, ()) ∧
        db4.room_inventory = db.room_inventory.map (fun ri =>
          match db.booking_items.find? (fun it =>
              it.booking_id == bid && it.room_id == ri.room_id) with
          | some it =>
            if booking.checkin_date ≤ ri.date ∧
                ri.date < booking.checkout_date then
              { ri with available_units := ri.available_units + it.quantity }
            else ri
          | none => ri) ∧
        (∀ p, latestCompletedPayment db bid = some p →
          db4.payments = db.payments ++
            [{ id := db.next_payment_id, booking_id := bid,
               provider := p.provider, ptype := "refund",
               status := "pending", amount := p.amount,
               currency := p.currency,
               transaction_id := "refund_" ++ p.transaction_id,
               original_payment_id := some p.id,
               created_at := db.next_payment_id }]) ∧
        (latestCompletedPayment db bid = none →
          db4.payments = db.payments)) := by
  refine ⟨?_, ?_, ?_⟩
  · intro hstat
    have hb : (booking.status == "pending" ||
        booking.status == "confirmed") = false := by
      simp only [Bool.or_eq_false_iff, beq_eq_false_iff_ne]
      exact ⟨fun hh => hstat (Or.inl hh), fun hh => hstat (Or.inr hh)⟩
    refine ⟨.cannotBeCancelled, ?_, rfl⟩
    unfold cancelBookingBody
    simp only [hfind, hb, Bool.not_false, if_true]
  · intro htime
    by_cases hsb : (booking.status == "pending" ||
        booking.status == "confirmed") = true
    · refine ⟨.cancellationWindow, ?_, rfl⟩
      unfold cancelBookingBody
      simp only [hfind, hsb, Bool.not_true, Bool.false_eq_true, if_false,
        if_pos htime]
    · have hb : (booking.status == "pending" ||
          booking.status == "confirmed") = false :=
        Bool.eq_false_iff.mpr hsb
      refine ⟨.cannotBeCancelled, ?_, rfl⟩
      unfold cancelBookingBody
      simp only [hfind, hb, Bool.not_false, if_true]
  · intro hstat htime
    have hb : (booking.status == "pending" ||
        booking.status == "confirmed") = true := by
      rcases hstat with hh | hh
      · simp [hh]
      · simp [hh]
    unfold cancelBookingBody
    simp only [hfind, hb, Bool.not_true, Bool.false_eq_true, if_false,
      if_neg htime]
    refine ⟨_, rfl, ?_, ?_, ?_⟩
    · split <;> rfl
    · intro p hp
      split
      · rename_i p2 heq
        have heq2 : latestCompletedPayment db bid = some p2 := heq
        rw [hp] at heq2
        injection heq2 with heq3
        subst heq3
        rfl
      · rename_i heq
        have heq2 : latestCompletedPayment db bid = none := heq
        rw [hp] at heq2
        exact Option.noConfusion heq2
    · intro hnone
      split
      · rename_i p2 heq
        have heq2 : latestCompletedPayment db bid = some p2 := heq
        rw [hnone] at heq2
        exact Option.noConfusion heq2
      · rfl

/-- Claim C5 witness: a user attempt to cancel an already-checked-in owned
booking fails with a CancellationNotAllowed-class error. -/
theorem claim_c5_witness :
    ∃ e, cancelBookingBody 1 1 none 0 c5db = .error e ∧
      e.isCancellationNotAllowed = true :=
  (claim_c5 c5db 1 1 none 0 c5booking (by decide)).1 (by decide)

/-- Claim C6, amended: for a user cancel or update whose ownership-scoped
lookup finds no row — either because the booking id does not exist or
because the booking belongs to a different user — the operation fails with
the SAME single 404 client error, the combined booking-not-found-or-denied
AppError; the two cases are NOT distinguishable by the caller, and neither
is a fatal crash. -/
theorem claim_c6 (db : DB) (bid uid : Nat) (reason : Option String)
    (upd : UpdateBookingData) (nowMs : Int)
    (hnone : db.bookings.find? (fun b => b.id == bid && b.user_id == uid) =
      none) :
    cancelBookingBody bid uid reason nowMs db =
      .error .bookingNotFoundOrDenied ∧
    updateUserBookingBody bid uid upd nowMs db =
      .error .bookingNotFoundOrDenied ∧
    BErr.httpStatus .bookingNotFoundOrDenied = 404 := by
  refine ⟨?_, ?_, rfl⟩
  · unfold cancelBookingBody
    simp only [hnone]
  · unfold updateUserBookingBody
    simp only [hnone]

/-- Claim C6 counterexample: booking 1 exists and is owned by user 1, yet a
cancel and an update by user 2 both fail with the 404 combined error, not
with a 403 — the not-owned case is not surfaced as 403 and cannot be told
apart from not-found. -/
theorem claim_c6_counterexample :
    c6db.bookings = [c6booking] ∧ c6booking.user_id = 1 ∧
    cancelBookingBody 1 2 none 0 c6db = .error .bookingNotFoundOrDenied ∧
    updateUserBookingBody 1 2 c6upd 0 c6db =
      .error .bookingNotFoundOrDenied ∧
    BErr.httpStatus .bookingNotFoundOrDenied = 404 ∧
    ¬(BErr.httpStatus .bookingNotFoundOrDenied = 403) :=
  ⟨rfl, rfl, rfl, rfl, rfl, by decide⟩

/-- Claim C6 witness: a wholly absent booking id also yields the combined
404 error on both operations. -/
theorem claim_c6_witness :
    cancelBookingBody 9 1 none 0 c6db = .error .bookingNotFoundOrDenied ∧
    updateUserBookingBody 9 1 c6upd 0 c6db =
      .error .bookingNotFoundOrDenied ∧
    BErr.httpStatus .bookingNotFoundOrDenied = 404 :=
  claim_c6 c6db 9 1 none c6upd 0 (by decide)
